import Mathlib

/-!
Verification of the book-resource layer of the FastAPI CRUD application:
the paginated list endpoints, the owner-scoped write endpoints, the
soft/hard delete paths, and the cache-invalidation behaviour, as a shallow
embedding of `src/app/api/v1/books.py`, `src/app/models/book.py`,
`src/app/schemas/book.py` and `src/app/crud/crud_books.py`.

The database is a pair of lists (users, books); each route handler is a
pure function from the database (and the request parameters) to an
`Except` of an API error or a result paired with the possibly-updated
database.  Handlers never modify the database on the error path, matching
the per-request transactional model.
-/

namespace FastApiBooks

/-- A row of the `user` table, restricted to the columns the book routes
read: `id`, `username`, `is_superuser`, `is_deleted`
(from `src/app/models/user.py` via `UserRead`). -/
structure User where
  id : Nat
  username : String
  is_superuser : Bool := false
  is_deleted : Bool := false
deriving Repr, BEq, DecidableEq

/-- A row of the `book` table (`src/app/models/book.py`).  The `isbn`
column carries a UNIQUE constraint (model line 17); `created_by_user_id`
is a nullable foreign key to `user.id`.  Timestamps are modelled as
natural numbers. -/
structure Book where
  id : Nat
  title : String
  author : String
  description : Option String := none
  isbn : Option String := none
  publication_year : Option Int := none
  genre : Option String := none
  pages : Option Nat := none
  cover_image_url : Option String := none
  folder_path : Option String := none
  file_size_bytes : Option Nat := none
  content_hash : Option String := none
  created_by_user_id : Option Nat := none
  uuid : Nat := 0
  created_at : Nat := 0
  updated_at : Option Nat := none
  deleted_at : Option Nat := none
  is_deleted : Bool := false
deriving Repr, BEq, DecidableEq

/-- The database state: the `user` and `book` tables. -/
structure DB where
  users : List User
  books : List Book
deriving Repr, BEq, DecidableEq

/-- The `BookCreate` request schema (`src/app/schemas/book.py`, lines
98-99): all `BookBase` fields, extras forbidden. -/
structure BookCreate where
  title : String
  author : String
  description : Option String := none
  isbn : Option String := none
  publication_year : Option Int := none
  genre : Option String := none
  pages : Option Nat := none
  cover_image_url : Option String := none
  folder_path : Option String := none
  file_size_bytes : Option Nat := none
  content_hash : Option String := none
deriving Repr, BEq, DecidableEq

/-- The `BookUpdate` request schema (`src/app/schemas/book.py`, lines
106-141): exactly the eight fields `title`, `author`, `description`,
`isbn`, `publication_year`, `genre`, `pages`, `cover_image_url`, each
optional; `none` models an omitted (unset) field, which FastCRUD's
partial update leaves unchanged. -/
structure BookUpdate where
  title : Option String := none
  author : Option String := none
  description : Option String := none
  isbn : Option String := none
  publication_year : Option Int := none
  genre : Option String := none
  pages : Option Nat := none
  cover_image_url : Option String := none
deriving Repr, BEq, DecidableEq

/-- The field names accepted by `BookUpdate`
(`src/app/schemas/book.py` lines 106-141). -/
def bookUpdateFieldNames : List String :=
  ["title", "author", "description", "isbn", "publication_year",
   "genre", "pages", "cover_image_url"]

/-- The error taxonomy of the HTTP layer
(`core/exceptions/http_exceptions.py`, used in `books.py`), plus the raw
database `IntegrityError` for a uniqueness violation at the write and the
schema-layer `ValidationError` (422). -/
inductive ApiError where
  | NotFound (msg : String)
  | Forbidden
  | DuplicateValue (msg : String)
  | IntegrityError
  | ValidationError
deriving Repr, BEq, DecidableEq

/-- Python truthiness of an optional string: `if book.isbn:` is taken
only for a non-`None`, non-empty value. -/
def optStrTruthy : Option String → Bool
  | none => false
  | some s => s != ""

/-- `crud_users.get(db, username=..., is_deleted=False)`: first user row
matching the username with `is_deleted = false`. -/
def usersGetByUsername (db : DB) (username : String) : Option User :=
  (db.users.filter (fun u => u.username == username && u.is_deleted == false)).head?

/-- `crud_books.get(db, **filters)`: first book row matching the filter. -/
def booksGet (db : DB) (pred : Book → Bool) : Option Book :=
  (db.books.filter pred).head?

/-- `crud_books.exists(db, **filters)`. -/
def booksExists (db : DB) (pred : Book → Bool) : Bool :=
  db.books.any pred

/-- Whether a list of book rows violates the UNIQUE constraint on the
`isbn` column (`src/app/models/book.py` line 17): two distinct rows both
holding the same non-null ISBN. -/
def isbnCollides : List Book → Bool
  | [] => false
  | b :: rest =>
    (match b.isbn with
     | some s => rest.any (fun c => c.isbn == some s)
     | none => false) || isbnCollides rest

/-- `crud_books.create(db, object=...)`: inserts the row.  The insert
fails with a database `IntegrityError` when the new row's non-null ISBN
equals the ISBN of any existing row, deleted or not, because the UNIQUE
index on `isbn` covers the whole table. -/
def booksCreate (db : DB) (row : Book) : Except ApiError (Book × DB) :=
  match row.isbn with
  | some s =>
    if db.books.any (fun b => b.isbn == some s) then .error .IntegrityError
    else .ok (row, ⟨db.users, db.books ++ [row]⟩)
  | none => .ok (row, ⟨db.users, db.books ++ [row]⟩)

/-- Application of a partial `BookUpdate` to a row: fields provided in
the update overwrite the row's fields, omitted fields are unchanged, and
`updated_at` is stamped (`BookUpdateInternal`, schema lines 143-144). -/
def bookApplyUpdate (values : BookUpdate) (now : Nat) (b : Book) : Book :=
  { b with
    title := values.title.getD b.title
    author := values.author.getD b.author
    description := match values.description with
      | some d => some d
      | none => b.description
    isbn := match values.isbn with
      | some s => some s
      | none => b.isbn
    publication_year := match values.publication_year with
      | some y => some y
      | none => b.publication_year
    genre := match values.genre with
      | some g => some g
      | none => b.genre
    pages := match values.pages with
      | some p => some p
      | none => b.pages
    cover_image_url := match values.cover_image_url with
      | some u => some u
      | none => b.cover_image_url
    updated_at := some now }

/-- `crud_books.update(db, object=values, **filters)`: rewrites every row
matching the filter with the partial update.  The write fails with a
database `IntegrityError` when the updated table violates the UNIQUE
constraint on `isbn`. -/
def booksUpdate (db : DB) (pred : Book → Bool) (values : BookUpdate)
    (now : Nat) : Except ApiError DB :=
  let books' := db.books.map (fun b => if pred b then bookApplyUpdate values now b else b)
  if isbnCollides books' then .error .IntegrityError
  else .ok ⟨db.users, books'⟩

/-- Modelled from the spec: FastCRUD `delete` (the `fastcrud` library is
not under `src/`) performs a soft delete, setting `is_deleted=true` and
`deleted_at` on every row matching the filter while leaving the rows in
storage (spec section 3: "removed either via soft delete (`delete`, sets
flags) ..."). -/
def booksSoftDelete (db : DB) (pred : Book → Bool) (now : Nat) : DB :=
  ⟨db.users,
   db.books.map (fun b =>
     if pred b then { b with is_deleted := true, deleted_at := some now } else b)⟩

/-- Modelled from the spec: FastCRUD `db_delete` (the `fastcrud` library
is not under `src/`) removes every row matching the filter from storage
(spec section 3: "... or hard delete (`db_delete`, superuser-only,
removes the row)"). -/
def booksDbDelete (db : DB) (pred : Book → Bool) : DB :=
  ⟨db.users, db.books.filter (fun b => !(pred b))⟩

/-- Modelled from the spec: `fastcrud.paginated.compute_offset` for a
1-based page, "Offset = (page-1) x items_per_page" (spec section 4.1). -/
def compute_offset (page items_per_page : Nat) : Nat :=
  (page - 1) * items_per_page

/-- Modelled from the spec: FastCRUD `get_multi(db, offset=..., limit=...,
**filters)` returns the slice `[offset, offset+limit)` of the rows
matching the filter together with the total count of matching rows. -/
def booksGetMulti (db : DB) (pred : Book → Bool) (offset limit : Nat) :
    List Book × Nat :=
  let rows := db.books.filter pred
  ((rows.drop offset).take limit, rows.length)

/-- The pagination envelope
`{data, total_count, page, items_per_page, has_more}` (spec section 6). -/
structure PaginatedResponse where
  data : List Book
  total_count : Nat
  page : Nat
  items_per_page : Nat
  has_more : Bool
deriving Repr, BEq, DecidableEq

/-- Modelled from the spec: `fastcrud.paginated.paginated_response`
shapes the envelope; `has_more` tells whether rows remain beyond this
page. -/
def paginated_response (data : List Book) (total : Nat)
    (page items_per_page : Nat) : PaginatedResponse :=
  ⟨data, total, page, items_per_page, page * items_per_page < total⟩

/-- `GET|POST /books` (`books.py` lines 18-39): public paginated listing
of non-deleted books; `page` defaults to 1 and `items_per_page` to 10. -/
def read_all_books (db : DB) (page : Nat := 1) (items_per_page : Nat := 10) :
    PaginatedResponse :=
  let r := booksGetMulti db (fun b => b.is_deleted == false)
    (compute_offset page items_per_page) items_per_page
  paginated_response r.1 r.2 page items_per_page

/-- `GET|POST /{username}/books` (`books.py` lines 86-123): paginated
listing of a user's non-deleted books; 404 when the username does not
resolve. -/
def read_books (db : DB) (username : String) (page : Nat := 1)
    (items_per_page : Nat := 10) : Except ApiError PaginatedResponse :=
  match usersGetByUsername db username with
  | none => .error (.NotFound "User not found")
  | some user =>
    let r := booksGetMulti db
      (fun b => b.created_by_user_id == some user.id && b.is_deleted == false)
      (compute_offset page items_per_page) items_per_page
    .ok (paginated_response r.1 r.2 page items_per_page)

/-- The row built by `write_book` from the request body: the
`BookCreateInternal(**book_internal_dict)` step (`books.py` lines 73-76),
with `created_by_user_id` set to the resolved owner and the
database-generated `id`, `uuid` and `created_at`. -/
def bookRowOfCreate (book : BookCreate) (user_id newId newUuid now : Nat) :
    Book :=
  { id := newId, title := book.title, author := book.author,
    description := book.description, isbn := book.isbn,
    publication_year := book.publication_year, genre := book.genre,
    pages := book.pages, cover_image_url := book.cover_image_url,
    folder_path := book.folder_path,
    file_size_bytes := book.file_size_bytes,
    content_hash := book.content_hash,
    created_by_user_id := some user_id,
    uuid := newUuid, created_at := now }

/-- `POST /{username}/book` (`books.py` lines 43-83): resolve the owner,
require the caller to be the owner, pre-check the ISBN against non-deleted
books, insert, and re-read the created row.  No handler code catches the
database `IntegrityError`, so a uniqueness violation at the insert
propagates. -/
def write_book (db : DB) (current_user_id : Nat) (username : String)
    (book : BookCreate) (newId newUuid now : Nat) :
    Except ApiError (Book × DB) :=
  match usersGetByUsername db username with
  | none => .error (.NotFound "User not found")
  | some user =>
    if current_user_id ≠ user.id then .error .Forbidden
    else if optStrTruthy book.isbn &&
        booksExists db (fun b => b.isbn == book.isbn && b.is_deleted == false) then
      .error (.DuplicateValue "Book with this ISBN already exists")
    else
      match booksCreate db (bookRowOfCreate book user.id newId newUuid now) with
      | .error e => .error e
      | .ok (created, db') =>
        match booksGet db' (fun b => b.id == created.id) with
        | none => .error (.NotFound "Created book not found")
        | some b => .ok (b, db')

/-- `GET /{username}/book/{id}` (`books.py` lines 126-150): owner-scoped
single-book read, excluding soft-deleted rows. -/
def read_book (db : DB) (username : String) (id : Nat) :
    Except ApiError Book :=
  match usersGetByUsername db username with
  | none => .error (.NotFound "User not found")
  | some user =>
    match booksGet db (fun b =>
        b.id == id && b.created_by_user_id == some user.id &&
        b.is_deleted == false) with
    | none => .error (.NotFound "Book not found")
    | some b => .ok b

/-- `PATCH /{username}/book/{id}` (`books.py` lines 153-190): resolve the
owner, require the caller to be the owner, look up the non-deleted book,
pre-check a changed ISBN against non-deleted books, and update.  No
handler code catches the database `IntegrityError` from the update. -/
def patch_book (db : DB) (current_user_id : Nat) (username : String)
    (id : Nat) (values : BookUpdate) (now : Nat) :
    Except ApiError (String × DB) :=
  match usersGetByUsername db username with
  | none => .error (.NotFound "User not found")
  | some user =>
    if current_user_id ≠ user.id then .error .Forbidden
    else
      match booksGet db (fun b =>
          b.id == id && b.created_by_user_id == some user.id &&
          b.is_deleted == false) with
      | none => .error (.NotFound "Book not found")
      | some db_book =>
        if optStrTruthy values.isbn && values.isbn != db_book.isbn &&
            booksExists db (fun b =>
              b.isbn == values.isbn && b.is_deleted == false) then
          .error (.DuplicateValue "Book with this ISBN already exists")
        else
          match booksUpdate db
            (fun b => b.id == id && b.created_by_user_id == some user.id)
            values now with
          | .error e => .error e
          | .ok db' => .ok ("Book updated successfully", db')

/-- `DELETE /{username}/book/{id}` (`books.py` lines 193-223): resolve
the owner, require the caller to be the owner, look up the non-deleted
book (so a second delete of the same book finds nothing), and soft
delete. -/
def erase_book (db : DB) (current_user_id : Nat) (username : String)
    (id : Nat) (now : Nat) : Except ApiError (String × DB) :=
  match usersGetByUsername db username with
  | none => .error (.NotFound "User not found")
  | some user =>
    if current_user_id ≠ user.id then .error .Forbidden
    else
      match booksGet db (fun b =>
          b.id == id && b.created_by_user_id == some user.id &&
          b.is_deleted == false) with
      | none => .error (.NotFound "Book not found")
      | some _ =>
        .ok ("Book deleted successfully",
          booksSoftDelete db
            (fun b => b.id == id && b.created_by_user_id == some user.id) now)

/-- `DELETE /{username}/db_book/{id}` handler body (`books.py` lines
228-249): resolve the owner from the path, look up the book by id and
resolved owner with no `is_deleted` filter, and hard delete.  The handler
takes no `current_user` parameter: it never compares the caller to the
owner. -/
def erase_db_book (db : DB) (username : String) (id : Nat) :
    Except ApiError (String × DB) :=
  match usersGetByUsername db username with
  | none => .error (.NotFound "User not found")
  | some user =>
    match booksGet db (fun b =>
        b.id == id && b.created_by_user_id == some user.id) with
    | none => .error (.NotFound "Book not found")
    | some _ =>
      .ok ("Book permanently deleted successfully",
        booksDbDelete db
          (fun b => b.id == id && b.created_by_user_id == some user.id))

/-- Modelled from the spec: the route for `DELETE /{username}/db_book/{id}`
declares `dependencies=[Depends(get_current_superuser)]` (`books.py` line
226); `get_current_superuser` lives in `api/dependencies.py`, which is
not under `src/`.  Per the spec (section 4.2, "A superuser-only
hard-delete path"), a non-superuser caller is rejected with a forbidden
error before the handler body runs. -/
def erase_db_book_route (db : DB) (caller : User) (username : String)
    (id : Nat) : Except ApiError (String × DB) :=
  if caller.is_superuser then erase_db_book db username id
  else .error .Forbidden

/-- `GET /book/{id}` (`books.py` lines 252-261): public single-book read,
excluding soft-deleted rows. -/
def read_public_book (db : DB) (id : Nat) : Except ApiError Book :=
  match booksGet db (fun b => b.id == id && b.is_deleted == false) with
  | none => .error (.NotFound "Book not found")
  | some b => .ok b

/-- Pydantic validation of the keys of a PATCH body against `BookUpdate`
with `model_config = ConfigDict(extra="forbid")` (`src/app/schemas/book.py`
line 107): a body naming a field outside the schema is rejected with a
validation error before the handler runs. -/
def bookUpdateValidateKeys (keys : List String) : Except ApiError Unit :=
  if keys.all (fun k => bookUpdateFieldNames.contains k) then .ok ()
  else .error .ValidationError

/-- Modelled from the spec: the cache keys produced by the key templates
of `core/utils/cache.py` (not under `src/`).  Each key is the template
interpolated with the route parameters; distinct parameters yield
distinct keys, and the wildcard pattern `{username}_books:*` declared by
`patch_book` matches exactly the `userBooks` keys of that username
(`books.py` lines 88-93 and 154). -/
inductive CacheKey where
  | userBooks (username : String) (page items_per_page : Nat)
  | userBook (username : String) (id : Nat)
  | publicBooks (page items_per_page : Nat)
  | publicBook (id : Nat)
deriving Repr, BEq, DecidableEq

/-- The cache store: a list of key/payload pairs (only the paginated-list
payloads matter to the claims). -/
abbrev Cache := List (CacheKey × PaginatedResponse)

/-- Modelled from the spec: cache lookup by key. -/
def cacheLookup (c : Cache) (k : CacheKey) : Option PaginatedResponse :=
  match c.find? (fun kv => decide (kv.1 = k)) with
  | some kv => some kv.2
  | none => none

/-- Modelled from the spec: storing a payload under a key on a cache miss. -/
def cacheStore (c : Cache) (k : CacheKey) (v : PaginatedResponse) : Cache :=
  (k, v) :: c

/-- Whether a key matches the wildcard pattern `{username}_books:*`. -/
def matchesUserBooksPattern (u : String) : CacheKey → Bool
  | .userBooks v _ _ => decide (v = u)
  | _ => false

/-- Modelled from the spec: invalidation of every key matching the
wildcard pattern `{username}_books:*` (spec section 4.3: "the layer
invalidates ... any keys matching a declared wildcard pattern"). -/
def cacheInvalidateUserBooks (c : Cache) (u : String) : Cache :=
  c.filter (fun kv => !(matchesUserBooksPattern u kv.1))

/-- Modelled from the spec: invalidation of one specific key. -/
def cacheInvalidateKey (c : Cache) (k : CacheKey) : Cache :=
  c.filter (fun kv => decide (kv.1 ≠ k))

/-- Modelled from the spec: `read_books` wrapped in the `@cache` decorator
with key template `{username}_books:page_{page}:items_per_page:{items_per_page}`
(`books.py` lines 88-93): on a hit the stored payload is returned without
touching the database; on a miss the handler runs and its response is
stored. -/
def read_books_cached (c : Cache) (db : DB) (username : String)
    (page items_per_page : Nat) :
    Except ApiError (PaginatedResponse × Cache) :=
  match cacheLookup c (.userBooks username page items_per_page) with
  | some payload => .ok (payload, c)
  | none =>
    match read_books db username page items_per_page with
    | .ok resp =>
      .ok (resp, cacheStore c (.userBooks username page items_per_page) resp)
    | .error e => .error e

/-- Modelled from the spec: `patch_book` wrapped in the `@cache` decorator
with `pattern_to_invalidate_extra=["{username}_books:*"]` (`books.py`
line 154): after a successful patch, the keyed entry of the patched book
and every cached page of that user's book list are invalidated. -/
def patch_book_cached (c : Cache) (db : DB) (current_user_id : Nat)
    (username : String) (id : Nat) (values : BookUpdate) (now : Nat) :
    Except ApiError (String × DB × Cache) :=
  match patch_book db current_user_id username id values now with
  | .ok (msg, db') =>
    .ok (msg, db',
      cacheInvalidateUserBooks
        (cacheInvalidateKey c (.userBook username id)) username)
  | .error e => .error e

/-! ### Concrete fixtures used by the witness theorems -/

/-- Fixture user `alice` (id 1). -/
def alice : User := { id := 1, username := "alice" }

/-- Fixture user `bob` (id 2). -/
def bob : User := { id := 2, username := "bob" }

/-- Fixture superuser `admin` (id 3). -/
def adminUser : User := { id := 3, username := "admin", is_superuser := true }

/-- Fixture: alice's live book. -/
def book1 : Book :=
  { id := 10, title := "T", author := "A", isbn := some "1234567890",
    created_by_user_id := some 1, uuid := 100 }

/-- Fixture: a soft-deleted book of alice's holding ISBN `0987654321`. -/
def book2 : Book :=
  { id := 11, title := "Old", author := "A", isbn := some "0987654321",
    created_by_user_id := some 1, uuid := 101,
    is_deleted := true, deleted_at := some 5 }

/-- Fixture: bob's live book, no ISBN. -/
def book3 : Book :=
  { id := 12, title := "B", author := "B", created_by_user_id := some 2,
    uuid := 102 }

/-- Fixture database with three users and three books. -/
def fixtureDB : DB := ⟨[alice, bob, adminUser], [book1, book2, book3]⟩

/-- The database state a caller observes after a handler call: the new
state on success, the unchanged one on an error (each request runs in its
own transaction, rolled back on failure). -/
def dbAfter {α : Type} (db : DB) : Except ApiError (α × DB) → DB
  | .ok r => r.2
  | .error _ => db

/-- Fixture PATCH body renaming alice's book to `B2`. -/
def patchTitleB2 : BookUpdate := { title := some "B2" }

/-- Fixture cache holding a pre-patch page of alice's book list. -/
def staleCache : Cache :=
  [(.userBooks "alice" 1 10, ⟨[book1], 1, 1, 10, false⟩)]

/-- The database after alice patches book 10 with `patchTitleB2`. -/
def patchedDB : DB :=
  match patch_book fixtureDB 1 "alice" 10 patchTitleB2 60 with
  | .ok r => r.2
  | .error _ => fixtureDB

/-- The cache after the cached patch of book 10 ran over `staleCache`. -/
def patchedCache : Cache :=
  match patch_book_cached staleCache fixtureDB 1 "alice" 10 patchTitleB2 60 with
  | .ok r => r.2.2
  | .error _ => staleCache

/-- The uncached (fresh) first page of alice's book list after the patch. -/
def freshAliceList : PaginatedResponse :=
  match read_books patchedDB "alice" 1 10 with
  | .ok r => r
  | .error _ => ⟨[], 0, 0, 0, false⟩

/-- Fixture creation body reusing book 10's live ISBN. -/
def createDupIsbn : BookCreate :=
  { title := "New", author := "N", isbn := some "1234567890" }

/-- Fixture creation body with a null ISBN. -/
def createNoIsbn : BookCreate := { title := "New", author := "N" }

/-- Fixture creation body reusing the ISBN `0987654321` held by the
soft-deleted book 11, which the pre-check (filtered on
`is_deleted=False`) does not see. -/
def createDeletedIsbn : BookCreate :=
  { title := "New", author := "N", isbn := some "0987654321" }

/-- Fixture PATCH body moving a book onto the soft-deleted book 11's
ISBN. -/
def patchDeletedIsbn : BookUpdate := { isbn := some "0987654321" }

/-- The database after alice soft-deletes book 10 at time 50. -/
def softDeletedDB : DB :=
  match erase_book fixtureDB 1 "alice" 10 50 with
  | .ok r => r.2
  | .error _ => fixtureDB

/-! ### Helper lemmas about the CRUD primitives -/

theorem booksGet_eq_none (db : DB) (p : Book → Bool)
    (h : ∀ b ∈ db.books, ¬ p b = true) : booksGet db p = none := by
  unfold booksGet
  rw [List.head?_eq_none_iff]
  exact List.filter_eq_nil_iff.mpr h

theorem booksGet_some_spec (db : DB) (p : Book → Bool) (b : Book)
    (h : booksGet db p = some b) : b ∈ db.books ∧ p b = true := by
  unfold booksGet at h
  have hmem : b ∈ db.books.filter p := by
    cases hf : db.books.filter p with
    | nil => rw [hf] at h; cases h
    | cons x xs =>
      rw [hf] at h
      cases h
      exact hf ▸ List.mem_cons_self b xs
  exact ⟨(List.mem_filter.mp hmem).1, (List.mem_filter.mp hmem).2⟩

theorem booksGet_isSome (db : DB) (p : Book → Bool) (b : Book)
    (hb : b ∈ db.books) (hp : p b = true) : ∃ c, booksGet db p = some c := by
  unfold booksGet
  cases hf : (db.books.filter p).head? with
  | some c => exact ⟨c, rfl⟩
  | none =>
    rw [List.head?_eq_none_iff] at hf
    exact absurd (List.mem_filter.mpr ⟨hb, hp⟩) (by simp [hf])

/-- C9: the superuser hard-delete lookup filters by the owner id resolved
from the path username: whenever every book row carrying the requested id
has a `created_by_user_id` different from the resolved user's id (in
particular when it is null), `DELETE /{username}/db_book/{id}` answers
NotFound and deletes nothing, for any superuser caller. -/
theorem C9_hard_delete_owner_filter (db : DB) (username : String)
    (user : User) (id : Nat)
    (hu : usersGetByUsername db username = some user)
    (hdiff : ∀ b ∈ db.books, b.id = id → b.created_by_user_id ≠ some user.id) :
    erase_db_book db username id = .error (.NotFound "Book not found")
    ∧ dbAfter db (erase_db_book db username id) = db
    ∧ ∀ caller : User, caller.is_superuser = true →
        erase_db_book_route db caller username id
          = .error (.NotFound "Book not found") := by
  have hget : booksGet db
      (fun b => b.id == id && b.created_by_user_id == some user.id) = none := by
    apply booksGet_eq_none
    intro b hb
    simp only [Bool.and_eq_true, beq_iff_eq, not_and]
    intro hid
    exact hdiff b hb hid
  have hmain : erase_db_book db username id
      = .error (.NotFound "Book not found") := by
    simp [erase_db_book, hu, hget]
  refine ⟨hmain, by rw [hmain]; rfl, ?_⟩
  intro caller hc
  unfold erase_db_book_route
  rw [hc]
  simpa using hmain

/-- C9 witness: in the fixture database, book 10 exists but belongs to
alice (id 1), so the hard delete addressed through bob's path answers
NotFound for the superuser caller. -/
theorem C9_hard_delete_owner_filter_witness :
    erase_db_book fixtureDB "bob" 10 = .error (.NotFound "Book not found") :=
  (C9_hard_delete_owner_filter fixtureDB "bob" bob 10 (by rfl)
    (by intro b hb h1 h2; fin_cases hb <;> simp_all [bob, book1, book2, book3])).1

/-- C10: soft delete is not repeatable: when every book row carrying the
requested id and owned by the resolved user is already soft-deleted, the
owner's `DELETE /{username}/book/{id}` answers NotFound (the lookup
requires `is_deleted=false`) and leaves the database unchanged. -/
theorem C10_soft_delete_not_repeatable (db : DB) (username : String)
    (user : User) (id now : Nat)
    (hu : usersGetByUsername db username = some user)
    (hdel : ∀ b ∈ db.books, b.id = id →
      b.created_by_user_id = some user.id → b.is_deleted = true) :
    erase_book db user.id username id now = .error (.NotFound "Book not found")
    ∧ dbAfter db (erase_book db user.id username id now) = db := by
  have hget : booksGet db
      (fun b => b.id == id && b.created_by_user_id == some user.id &&
        !b.is_deleted) = none := by
    apply booksGet_eq_none
    intro b hb
    simp only [Bool.and_eq_true, beq_iff_eq, Bool.not_eq_true']
    rintro ⟨⟨hid, hcre⟩, hdead⟩
    rw [hdel b hb hid hcre] at hdead
    simp at hdead
  have hmain : erase_book db user.id username id now
      = .error (.NotFound "Book not found") := by
    simp [erase_book, hu, hget]
  exact ⟨hmain, by rw [hmain]; rfl⟩

/-- C10 witness: book 11 of the fixture database is alice's already
soft-deleted book; her second delete answers NotFound. -/
theorem C10_soft_delete_not_repeatable_witness :
    erase_book fixtureDB 1 "alice" 11 50 = .error (.NotFound "Book not found") :=
  (C10_soft_delete_not_repeatable fixtureDB "alice" alice 11 50 (by rfl)
    (by intro b hb h1 h2; fin_cases hb <;> simp_all [alice, book1, book2, book3])).1

theorem booksCreate_error (db : DB) (row : Book) (e : ApiError)
    (h : booksCreate db row = .error e) : e = .IntegrityError := by
  unfold booksCreate at h
  split at h
  · split at h
    · cases h; rfl
    · cases h
  · cases h

theorem booksUpdate_error (db : DB) (p : Book → Bool) (values : BookUpdate)
    (now : Nat) (e : ApiError)
    (h : booksUpdate db p values now = .error e) : e = .IntegrityError := by
  simp only [booksUpdate] at h
  split at h
  · cases h; rfl
  · cases h

/-- C6: the hard-delete route is superuser-gated but performs no
caller-vs-owner check (its result is the same for every superuser
caller); it answers NotFound when the lookup by id and resolved owner
finds nothing; its lookup omits the `is_deleted` filter, so a row already
soft-deleted is reachable and is removed from storage. -/
theorem C6_hard_delete_superuser (db : DB) (caller : User)
    (username : String) (user : User) (id : Nat)
    (hu : usersGetByUsername db username = some user) :
    (caller.is_superuser = false →
      erase_db_book_route db caller username id = .error .Forbidden)
    ∧ (∀ other : User, caller.is_superuser = true → other.is_superuser = true →
        erase_db_book_route db caller username id
          = erase_db_book_route db other username id)
    ∧ (booksGet db (fun b => b.id == id && b.created_by_user_id == some user.id)
          = none →
        erase_db_book db username id = .error (.NotFound "Book not found"))
    ∧ (∀ b ∈ db.books, b.id = id → b.created_by_user_id = some user.id →
        b.is_deleted = true →
        ∃ db', erase_db_book db username id
            = .ok ("Book permanently deleted successfully", db')
          ∧ ∀ b2 ∈ db'.books,
              ¬(b2.id = id ∧ b2.created_by_user_id = some user.id)) := by
  refine ⟨?_, ?_, ?_, ?_⟩
  · intro hc
    unfold erase_db_book_route
    rw [hc]
    rfl
  · intro other h1 h2
    unfold erase_db_book_route
    rw [h1, h2]
  · intro hget
    simp [erase_db_book, hu, hget]
  · intro b hb hid hcre _hdead
    have hp : (fun c => c.id == id && c.created_by_user_id == some user.id) b
        = true := by
      simp [hid, hcre]
    obtain ⟨c, hc⟩ := booksGet_isSome db
      (fun c => c.id == id && c.created_by_user_id == some user.id) b hb hp
    refine ⟨booksDbDelete db
      (fun c => c.id == id && c.created_by_user_id == some user.id), ?_, ?_⟩
    · simp [erase_db_book, hu, hc]
    · intro b2 hb2
      rintro ⟨h1, h2⟩
      unfold booksDbDelete at hb2
      have := (List.mem_filter.mp hb2).2
      simp [h1, h2] at this

/-- C6 witness: the already soft-deleted book 11 (owned by alice) is
reachable by the hard delete and removed from storage. -/
theorem C6_hard_delete_superuser_witness :
    ∃ db', erase_db_book fixtureDB "alice" 11
        = .ok ("Book permanently deleted successfully", db')
      ∧ ∀ b2 ∈ db'.books, ¬(b2.id = 11 ∧ b2.created_by_user_id = some alice.id) :=
  (C6_hard_delete_superuser fixtureDB adminUser "alice" alice 11 (by rfl)).2.2.2
    book2 (by simp [fixtureDB]) rfl rfl rfl

/-- C5: creating a book whose ISBN equals the ISBN of an existing
non-deleted book yields the DuplicateValue conflict and creates no row;
with a null ISBN no duplicate check applies and creation proceeds,
appending exactly one row. -/
theorem C5_duplicate_isbn_create (db : DB) (username : String) (user : User)
    (book : BookCreate) (s : String) (newId newUuid now : Nat)
    (hu : usersGetByUsername db username = some user) :
    (book.isbn = some s → s ≠ "" →
      (∃ b ∈ db.books, b.isbn = some s ∧ b.is_deleted = false) →
      write_book db user.id username book newId newUuid now
        = .error (.DuplicateValue "Book with this ISBN already exists")
      ∧ dbAfter db (write_book db user.id username book newId newUuid now) = db)
    ∧ (book.isbn = none →
      ∃ r db', write_book db user.id username book newId newUuid now = .ok (r, db')
        ∧ db'.books.length = db.books.length + 1) := by
  constructor
  · intro hisbn hs hex
    have h1 : optStrTruthy book.isbn = true := by
      rw [hisbn]
      simpa [optStrTruthy] using hs
    have h2 : booksExists db
        (fun b => b.isbn == book.isbn && !b.is_deleted) = true := by
      obtain ⟨b, hb, hbisbn, hbdel⟩ := hex
      unfold booksExists
      rw [List.any_eq_true]
      exact ⟨b, hb, by rw [hisbn]; simp [hbisbn, hbdel]⟩
    have hmain : write_book db user.id username book newId newUuid now
        = .error (.DuplicateValue "Book with this ISBN already exists") := by
      unfold write_book
      rw [hu]
      simp [h1, h2]
    exact ⟨hmain, by rw [hmain]; rfl⟩
  · intro hisbn
    have h1 : (optStrTruthy book.isbn &&
        booksExists db (fun b => b.isbn == book.isbn && b.is_deleted == false))
        = false := by
      rw [hisbn]
      rfl
    have hrow : booksCreate db (bookRowOfCreate book user.id newId newUuid now)
        = .ok (bookRowOfCreate book user.id newId newUuid now,
            ⟨db.users,
             db.books ++ [bookRowOfCreate book user.id newId newUuid now]⟩) := by
      unfold booksCreate bookRowOfCreate
      simp only [hisbn]
    obtain ⟨c, hc⟩ := booksGet_isSome
      ⟨db.users, db.books ++ [bookRowOfCreate book user.id newId newUuid now]⟩
      (fun b => b.id == (bookRowOfCreate book user.id newId newUuid now).id)
      (bookRowOfCreate book user.id newId newUuid now)
      (by simp) (by simp)
    refine ⟨c,
      ⟨db.users, db.books ++ [bookRowOfCreate book user.id newId newUuid now]⟩,
      ?_, by simp⟩
    unfold write_book
    simp only [hu]
    have hne : ¬(user.id ≠ user.id) := fun h => h rfl
    rw [if_neg hne, h1]
    simp only [Bool.false_eq_true, if_false, hrow]
    rw [hc]

/-- C5 witness: creating a second book with the live ISBN `1234567890`
of book 10 under alice's path is rejected with the duplicate conflict;
creating one with no ISBN succeeds. -/
theorem C5_duplicate_isbn_create_witness :
    write_book fixtureDB 1 "alice" createDupIsbn 20 200 50
      = .error (.DuplicateValue "Book with this ISBN already exists")
    ∧ ∃ r db', write_book fixtureDB 1 "alice" createNoIsbn 20 200 50
        = .ok (r, db') ∧ db'.books.length = fixtureDB.books.length + 1 :=
  ⟨((C5_duplicate_isbn_create fixtureDB "alice" alice createDupIsbn
      "1234567890" 20 200 50 (by rfl)).1 rfl (by decide)
      ⟨book1, by simp [fixtureDB], rfl, rfl⟩).1,
   (C5_duplicate_isbn_create fixtureDB "alice" alice createNoIsbn
      "x" 20 200 50 (by rfl)).2 rfl⟩

/-- C3: when the path username resolves to a user, a caller whose id
differs from that user's id gets Forbidden from create, patch and soft
delete, with the database unchanged; when the caller is the owner, none
of the three operations answers Forbidden. -/
theorem C3_owner_required (db : DB) (username : String) (user : User)
    (caller : Nat) (book : BookCreate) (id newId newUuid now : Nat)
    (values : BookUpdate)
    (hu : usersGetByUsername db username = some user) :
    (caller ≠ user.id →
      write_book db caller username book newId newUuid now = .error .Forbidden
      ∧ patch_book db caller username id values now = .error .Forbidden
      ∧ erase_book db caller username id now = .error .Forbidden
      ∧ dbAfter db (write_book db caller username book newId newUuid now) = db
      ∧ dbAfter db (patch_book db caller username id values now) = db
      ∧ dbAfter db (erase_book db caller username id now) = db)
    ∧ (caller = user.id →
      write_book db caller username book newId newUuid now ≠ .error .Forbidden
      ∧ patch_book db caller username id values now ≠ .error .Forbidden
      ∧ erase_book db caller username id now ≠ .error .Forbidden) := by
  constructor
  · intro hne
    have hw : write_book db caller username book newId newUuid now
        = .error .Forbidden := by
      unfold write_book
      simp only [hu]
      rw [if_pos hne]
    have hp : patch_book db caller username id values now
        = .error .Forbidden := by
      unfold patch_book
      simp only [hu]
      rw [if_pos hne]
    have he : erase_book db caller username id now = .error .Forbidden := by
      unfold erase_book
      simp only [hu]
      rw [if_pos hne]
    exact ⟨hw, hp, he, by rw [hw]; rfl, by rw [hp]; rfl, by rw [he]; rfl⟩
  · intro heq
    subst heq
    have hne : ¬(user.id ≠ user.id) := fun h => h rfl
    refine ⟨?_, ?_, ?_⟩
    · unfold write_book
      simp only [hu]
      rw [if_neg hne]
      split
      · simp
      · split
        · next e he =>
          rw [booksCreate_error _ _ _ he]
          simp
        · split <;> simp
    · unfold patch_book
      simp only [hu]
      rw [if_neg hne]
      split
      · simp
      · split
        · simp
        · split
          · next e he =>
            rw [booksUpdate_error _ _ _ _ _ he]
            simp
          · simp
    · unfold erase_book
      simp only [hu]
      rw [if_neg hne]
      split
      · simp
      · simp

/-- C3 witness: bob (id 2) is rejected with Forbidden on all three write
paths against alice's book 10, and alice herself is not. -/
theorem C3_owner_required_witness :
    write_book fixtureDB 2 "alice" createNoIsbn 20 200 50 = .error .Forbidden
    ∧ patch_book fixtureDB 2 "alice" 10 patchTitleB2 50 = .error .Forbidden
    ∧ erase_book fixtureDB 2 "alice" 10 50 = .error .Forbidden
    ∧ erase_book fixtureDB 1 "alice" 10 50 ≠ .error .Forbidden :=
  ⟨((C3_owner_required fixtureDB "alice" alice 2 createNoIsbn 10 20 200 50
      patchTitleB2 (by rfl)).1 (by decide)).1,
   ((C3_owner_required fixtureDB "alice" alice 2 createNoIsbn 10 20 200 50
      patchTitleB2 (by rfl)).1 (by decide)).2.1,
   ((C3_owner_required fixtureDB "alice" alice 2 createNoIsbn 10 20 200 50
      patchTitleB2 (by rfl)).1 (by decide)).2.2.1,
   ((C3_owner_required fixtureDB "alice" alice 1 createNoIsbn 10 20 200 50
      patchTitleB2 (by rfl)).2 rfl).2.2⟩

/-- C1: the claim that the create and patch handlers catch a database
integrity violation missed by the pre-check and translate it to the
DuplicateValue conflict is FALSE of the code: neither handler has any
handling for the integrity error.  Concretely, the soft-deleted book 11
holds ISBN `0987654321`; the pre-check (which filters `is_deleted=False`)
passes, the UNIQUE index on `isbn` fails the write, and the raw
IntegrityError — not the DuplicateValue conflict — is the handlers'
result, both for create and for patch of book 10. -/
theorem C1_integrity_error_uncaught :
    write_book fixtureDB 1 "alice" createDeletedIsbn 20 200 50
      = .error .IntegrityError
    ∧ patch_book fixtureDB 1 "alice" 10 patchDeletedIsbn 50
      = .error .IntegrityError
    ∧ (Except.error ApiError.IntegrityError : Except ApiError (Book × DB))
      ≠ .error (.DuplicateValue "Book with this ISBN already exists") := by
  refine ⟨by rfl, by rfl, by simp⟩

/-- C2: every list query computes its offset as (page-1)*items_per_page
over the rows that pass the `is_deleted=false` filter (plus the owner
filter for the per-user list), the returned data slice has length at most
items_per_page, only non-deleted rows are returned, and omitted
parameters default to page=1, items_per_page=10. -/
theorem C2_pagination_offset (db : DB) (username : String) (user : User)
    (page items_per_page : Nat) (_hpage : 1 ≤ page)
    (hu : usersGetByUsername db username = some user) :
    (read_all_books db page items_per_page).data
      = ((db.books.filter (fun b => b.is_deleted == false)).drop
          ((page - 1) * items_per_page)).take items_per_page
    ∧ (read_all_books db page items_per_page).data.length ≤ items_per_page
    ∧ (∀ b ∈ (read_all_books db page items_per_page).data, b.is_deleted = false)
    ∧ read_all_books db = read_all_books db 1 10
    ∧ (∃ resp, read_books db username page items_per_page = .ok resp
        ∧ resp.data = ((db.books.filter (fun b =>
            b.created_by_user_id == some user.id && b.is_deleted == false)).drop
            ((page - 1) * items_per_page)).take items_per_page
        ∧ resp.data.length ≤ items_per_page
        ∧ ∀ b ∈ resp.data, b.is_deleted = false)
    ∧ read_books db username = read_books db username 1 10 := by
  have h1 : (read_all_books db page items_per_page).data
      = ((db.books.filter (fun b => b.is_deleted == false)).drop
          ((page - 1) * items_per_page)).take items_per_page := rfl
  refine ⟨h1, ?_, ?_, rfl, ?_, rfl⟩
  · rw [h1]
    simp [List.length_take]
  · intro b hb
    rw [h1] at hb
    have hmem := List.mem_of_mem_drop (List.mem_of_mem_take hb)
    simpa using (List.mem_filter.mp hmem).2
  · refine ⟨paginated_response
      (((db.books.filter (fun b => b.created_by_user_id == some user.id &&
          b.is_deleted == false)).drop
          ((page - 1) * items_per_page)).take items_per_page)
      ((db.books.filter (fun b => b.created_by_user_id == some user.id &&
          b.is_deleted == false)).length)
      page items_per_page, ?_, rfl, ?_, ?_⟩
    · unfold read_books
      rw [hu]
      rfl
    · simp [paginated_response, List.length_take]
    · intro b hb
      simp only [paginated_response] at hb
      have hmem := List.mem_of_mem_drop (List.mem_of_mem_take hb)
      have := (List.mem_filter.mp hmem).2
      simp only [Bool.and_eq_true, beq_iff_eq] at this
      exact this.2

/-- C2 witness: the public list at page 2 with one item per page over the
fixture database returns the slice after offset (2-1)*1 = 1 of the
non-deleted rows, of length at most 1. -/
theorem C2_pagination_offset_witness :
    (read_all_books fixtureDB 2 1).data
      = ((fixtureDB.books.filter (fun b => b.is_deleted == false)).drop 1).take 1
    ∧ (read_all_books fixtureDB 2 1).data.length ≤ 1 :=
  ⟨(C2_pagination_offset fixtureDB "alice" alice 2 1 (by decide) (by rfl)).1,
   (C2_pagination_offset fixtureDB "alice" alice 2 1 (by decide) (by rfl)).2.1⟩

/-- C8: an accepted PATCH can change only the eight `BookUpdate` fields:
every row of the database after a successful `patch_book` agrees with the
corresponding old row on `folder_path`, `file_size_bytes`,
`content_hash`, `created_by_user_id`, `uuid`, `created_at` and the
soft-delete fields; and a request body naming any field outside
`BookUpdate` is rejected as a validation error by the schema layer. -/
theorem C8_patch_frame (db : DB) (caller : Nat) (username : String)
    (id : Nat) (values : BookUpdate) (now : Nat) (msg : String) (db' : DB)
    (h : patch_book db caller username id values now = .ok (msg, db')) :
    List.Forall₂ (fun b b2 =>
      b2.folder_path = b.folder_path ∧ b2.file_size_bytes = b.file_size_bytes
      ∧ b2.content_hash = b.content_hash
      ∧ b2.created_by_user_id = b.created_by_user_id
      ∧ b2.uuid = b.uuid ∧ b2.created_at = b.created_at
      ∧ b2.is_deleted = b.is_deleted ∧ b2.deleted_at = b.deleted_at)
      db.books db'.books
    ∧ (∀ keys k, k ∈ keys → k ∉ bookUpdateFieldNames →
        bookUpdateValidateKeys keys = .error .ValidationError) := by
  constructor
  · unfold patch_book at h
    split at h
    · cases h
    · split at h
      · cases h
      · split at h
        · cases h
        · split at h
          · cases h
          · split at h
            · cases h
            · next db2 hup =>
              simp only [Except.ok.injEq, Prod.mk.injEq] at h
              obtain ⟨-, hdb⟩ := h
              subst hdb
              simp only [booksUpdate] at hup
              split at hup
              · cases hup
              · cases hup
                rw [List.forall₂_map_right_iff]
                refine List.forall₂_same.mpr ?_
                intro x _
                dsimp only
                split
                · exact ⟨rfl, rfl, rfl, rfl, rfl, rfl, rfl, rfl⟩
                · exact ⟨rfl, rfl, rfl, rfl, rfl, rfl, rfl, rfl⟩
  · intro keys k hk hnk
    unfold bookUpdateValidateKeys
    rw [if_neg]
    intro hall
    rw [List.all_eq_true] at hall
    exact hnk (by simpa using hall k hk)

/-- C8 witness: after alice's title patch of book 10, every row of the
database keeps its provenance, ownership, identity and soft-delete
fields. -/
theorem C8_patch_frame_witness :
    List.Forall₂ (fun b b2 =>
      b2.folder_path = b.folder_path ∧ b2.file_size_bytes = b.file_size_bytes
      ∧ b2.content_hash = b.content_hash
      ∧ b2.created_by_user_id = b.created_by_user_id
      ∧ b2.uuid = b.uuid ∧ b2.created_at = b.created_at
      ∧ b2.is_deleted = b.is_deleted ∧ b2.deleted_at = b.deleted_at)
      fixtureDB.books patchedDB.books :=
  (C8_patch_frame fixtureDB 1 "alice" 10 patchTitleB2 60
    "Book updated successfully" patchedDB (by rfl)).1

/-- C4: the owner's soft delete succeeds on a live owned book, keeps the
row in storage (same row count) with `is_deleted=true` and `deleted_at`
set, and afterwards the public single-book read, the owner single-book
read, the public list and the owner list all exclude it. -/
theorem C4_soft_delete_excluded (db : DB) (username : String) (user : User)
    (id now : Nat)
    (hu : usersGetByUsername db username = some user)
    (hex : ∃ b ∈ db.books, b.id = id ∧ b.created_by_user_id = some user.id ∧
      b.is_deleted = false)
    (hown : ∀ b ∈ db.books, b.id = id → b.created_by_user_id = some user.id) :
    ∃ db', erase_book db user.id username id now
        = .ok ("Book deleted successfully", db')
      ∧ db'.books.length = db.books.length
      ∧ (∀ b ∈ db'.books, b.id = id →
          b.is_deleted = true ∧ b.deleted_at = some now)
      ∧ read_public_book db' id = .error (.NotFound "Book not found")
      ∧ read_book db' username id = .error (.NotFound "Book not found")
      ∧ (∀ p n, ∀ b ∈ (read_all_books db' p n).data, b.id ≠ id)
      ∧ (∀ p n resp, read_books db' username p n = .ok resp →
          ∀ b ∈ resp.data, b.id ≠ id) := by
  obtain ⟨b0, hb0, hid0, hcre0, hdel0⟩ := hex
  have hp0 : (fun b => b.id == id && b.created_by_user_id == some user.id &&
      !b.is_deleted) b0 = true := by
    simp [hid0, hcre0, hdel0]
  obtain ⟨c, hc⟩ := booksGet_isSome db
    (fun b => b.id == id && b.created_by_user_id == some user.id &&
      !b.is_deleted) b0 hb0 hp0
  have hflags : ∀ b ∈ (booksSoftDelete db
      (fun b => b.id == id && b.created_by_user_id == some user.id)
      now).books,
      b.id = id → b.is_deleted = true ∧ b.deleted_at = some now := by
    intro b hb hbid
    unfold booksSoftDelete at hb
    simp only [List.mem_map] at hb
    obtain ⟨a, ha, rfl⟩ := hb
    by_cases hpa : (a.id == id && a.created_by_user_id == some user.id) = true
    · rw [if_pos hpa]
      exact ⟨rfl, rfl⟩
    · rw [if_neg hpa] at hbid ⊢
      exact absurd (by simp [hbid, hown a ha hbid]) hpa
  have hu2 : usersGetByUsername (booksSoftDelete db
      (fun b => b.id == id && b.created_by_user_id == some user.id) now)
      username = some user := hu
  refine ⟨booksSoftDelete db
    (fun b => b.id == id && b.created_by_user_id == some user.id) now,
    by simp [erase_book, hu, hc], by simp [booksSoftDelete], hflags,
    ?_, ?_, ?_, ?_⟩
  · -- public single-book read
    have hget : booksGet (booksSoftDelete db
        (fun b => b.id == id && b.created_by_user_id == some user.id) now)
        (fun b => b.id == id && !b.is_deleted) = none := by
      apply booksGet_eq_none
      intro b hb
      simp only [Bool.and_eq_true, beq_iff_eq, Bool.not_eq_true']
      rintro ⟨hbid, hbdel⟩
      rw [(hflags b hb hbid).1] at hbdel
      cases hbdel
    simp [read_public_book, hget]
  · -- owner single-book read
    have hget : booksGet (booksSoftDelete db
        (fun b => b.id == id && b.created_by_user_id == some user.id) now)
        (fun b => b.id == id && b.created_by_user_id == some user.id &&
          !b.is_deleted) = none := by
      apply booksGet_eq_none
      intro b hb
      simp only [Bool.and_eq_true, beq_iff_eq, Bool.not_eq_true']
      rintro ⟨⟨hbid, _⟩, hbdel⟩
      rw [(hflags b hb hbid).1] at hbdel
      cases hbdel
    simp [read_book, hu2, hget]
  · -- public list
    intro p n b hb hbid
    have hb2 : b ∈ (((booksSoftDelete db
        (fun b => b.id == id && b.created_by_user_id == some user.id)
        now).books.filter (fun b => b.is_deleted == false)).drop
        ((p - 1) * n)).take n := hb
    have hmem := List.mem_of_mem_drop (List.mem_of_mem_take hb2)
    have hpass := (List.mem_filter.mp hmem).2
    rw [(hflags b (List.mem_filter.mp hmem).1 hbid).1] at hpass
    simp at hpass
  · -- owner list
    intro p n resp hresp b hb hbid
    unfold read_books at hresp
    simp only [hu2, Except.ok.injEq] at hresp
    subst hresp
    have hb2 : b ∈ (((booksSoftDelete db
        (fun b => b.id == id && b.created_by_user_id == some user.id)
        now).books.filter (fun b =>
          b.created_by_user_id == some user.id &&
          b.is_deleted == false)).drop ((p - 1) * n)).take n := hb
    have hmem := List.mem_of_mem_drop (List.mem_of_mem_take hb2)
    have hpass := (List.mem_filter.mp hmem).2
    rw [Bool.and_eq_true, (hflags b (List.mem_filter.mp hmem).1 hbid).1]
      at hpass
    simp at hpass

/-- C4 witness: alice soft-deletes her live book 10 at time 50; the
public single-book read of id 10 on the resulting database answers
NotFound. -/
theorem C4_soft_delete_excluded_witness :
    erase_book fixtureDB 1 "alice" 10 50
      = .ok ("Book deleted successfully", softDeletedDB)
    ∧ read_public_book softDeletedDB 10 = .error (.NotFound "Book not found") := by
  obtain ⟨db', h1, _, _, h4, -⟩ := C4_soft_delete_excluded fixtureDB "alice"
    alice 10 50 (by rfl) ⟨book1, by simp [fixtureDB], rfl, rfl, rfl⟩
    (by intro b hb h1; fin_cases hb <;> simp_all [alice, book1, book2, book3])
  have h0 : erase_book fixtureDB 1 "alice" 10 50
      = .ok ("Book deleted successfully", softDeletedDB) := by rfl
  have h0b : erase_book fixtureDB alice.id "alice" 10 50
      = .ok ("Book deleted successfully", softDeletedDB) := h0
  rw [h0b] at h1
  simp only [Except.ok.injEq, Prod.mk.injEq] at h1
  obtain ⟨-, hdb⟩ := h1
  rw [← hdb] at h4
  exact ⟨h0, h4⟩

theorem cacheLookup_invalidateUserBooks (c : Cache) (u : String) (p n : Nat) :
    cacheLookup (cacheInvalidateUserBooks c u) (.userBooks u p n) = none := by
  unfold cacheLookup
  cases hf : (cacheInvalidateUserBooks c u).find?
      (fun kv => decide (kv.1 = CacheKey.userBooks u p n)) with
  | none => rfl
  | some kv =>
    have hmem := List.mem_of_find?_eq_some hf
    have hpred := List.find?_some hf
    have h1 : kv.1 = CacheKey.userBooks u p n := of_decide_eq_true hpred
    have h2 := (List.mem_filter.mp hmem).2
    rw [h1] at h2
    simp [matchesUserBooksPattern] at h2

/-- C7: after a successful cached PATCH of a user's book, every cached
page of that user's book list has been invalidated (the declared wildcard
`{username}_books:*`), so a subsequent cached GET of the list misses the
cache and returns exactly the fresh post-patch database result — never a
pre-patch cached payload. -/
theorem C7_patch_invalidates_user_list_cache (c : Cache) (db : DB)
    (caller : Nat) (username : String) (id : Nat) (values : BookUpdate)
    (now : Nat) (msg : String) (db' : DB) (c' : Cache)
    (h : patch_book_cached c db caller username id values now
      = .ok (msg, db', c'))
    (page items_per_page : Nat) (fresh : PaginatedResponse)
    (hf : read_books db' username page items_per_page = .ok fresh) :
    read_books_cached c' db' username page items_per_page
      = .ok (fresh,
          cacheStore c' (.userBooks username page items_per_page) fresh) := by
  unfold patch_book_cached at h
  split at h
  · simp only [Except.ok.injEq, Prod.mk.injEq] at h
    obtain ⟨-, -, hc⟩ := h
    subst hc
    unfold read_books_cached
    rw [cacheLookup_invalidateUserBooks, hf]
  · cases h

/-- C7 witness: the cache holds a stale pre-patch page of alice's list;
after alice's cached title patch of book 10, the cached GET of the list
computes the fresh post-patch page (whose single row carries the new
title) instead of serving the stale entry. -/
theorem C7_patch_invalidates_user_list_cache_witness :
    read_books_cached patchedCache patchedDB "alice" 1 10
      = .ok (freshAliceList,
          cacheStore patchedCache (.userBooks "alice" 1 10) freshAliceList) :=
  C7_patch_invalidates_user_list_cache staleCache fixtureDB 1 "alice" 10
    patchTitleB2 60 "Book updated successfully" patchedDB patchedCache
    (by rfl) 1 10 freshAliceList (by rfl)

end FastApiBooks
